import Mathlib

/-!
Shallow embedding of the AdvisorAI integration glue code
(`hubspot_oauth.py`, `hubspot_client.py`, `embedding_server.py`):
the OAuth2 authorization-code flow (authorization-URL builder, local
callback listener, code exchange, token refresh and persistence), the
thin REST resource client, and the embedding façade.  Python dicts are
association lists of JSON values; HTTP interactions are embedded as
functions of the response the remote endpoint returns.
-/

namespace AdvisorAI

/-- JSON values, restricted to the shapes this program reads and writes:
strings, integers, booleans, `null` (Python `None`), and arrays of
strings (the only array the code ever persists is the `scopes` list). -/
inductive JsonVal where
  | str (s : String)
  | num (n : Int)
  | arr (l : List String)
  | bool (b : Bool)
  | null
deriving DecidableEq, Repr

/-- A Python dict with string keys, as an insertion-ordered association
list (keys unique in any dict actually built by Python). -/
abbrev PyDict := List (String × JsonVal)

/-- `d[k]` / `d.get(k)`: the value at the first entry whose key is `k`. -/
def dictGet (d : PyDict) (k : String) : Option JsonVal :=
  match d with
  | [] => none
  | (k', v) :: rest => if k' = k then some v else dictGet rest k

/-- `k in d`. -/
def dictContains (d : PyDict) (k : String) : Bool :=
  (dictGet d k).isSome

/-- `d[k] = v`: replace the value in place if the key exists (Python
dicts keep the key's original position), otherwise append. -/
def dictSet (d : PyDict) (k : String) (v : JsonVal) : PyDict :=
  match d with
  | [] => [(k, v)]
  | (k', v') :: rest => if k' = k then (k', v) :: rest else (k', v') :: dictSet rest k v

/-- `d.update(other)`: set every entry of `other` into `d`, in order. -/
def dictUpdate (d other : PyDict) : PyDict :=
  other.foldl (fun acc kv => dictSet acc kv.1 kv.2) d

/-! ## Local callback listener (`OAuthCallbackHandler.do_GET`) -/

/-- The result of `urllib.parse.parse_qs` on the callback query string:
each parameter name maps to the list of values it occurred with. -/
abbrev QueryParams := List (String × List String)

/-- Lookup of a parameter's value list. -/
def qLookup (q : QueryParams) (k : String) : Option (List String) :=
  match q with
  | [] => none
  | (k', vs) :: rest => if k' = k then some vs else qLookup rest k

/-- `k in query_params`. -/
def qContains (q : QueryParams) (k : String) : Bool :=
  (qLookup q k).isSome

/-- `query_params[k][0]` / `query_params.get(k, [None])[0]`: the first
value of parameter `k`, when present. -/
def qFirst (q : QueryParams) (k : String) : Option String :=
  (qLookup q k).bind List.head?

/-- What one invocation of `OAuthCallbackHandler.do_GET` produces: the
HTTP status it responds with (`none` when no response is sent at all)
and the `auth_code` / `state` / `error` fields it stores on the server
object (lines 199–201 copy the handler's fields to the server). -/
structure HandlerOutcome where
  response_status : Option Nat
  auth_code : Option String
  state : Option String
  error : Option String
deriving DecidableEq, Repr

/-- `OAuthCallbackHandler.do_GET` (hubspot_oauth.py lines 151–201): if
`code` is among the query parameters, record it (plus optional `state`)
and respond 200; else if `error` is present, record it and respond 400;
otherwise fall through: no branch runs, no response is written, and all
captured fields stay `None`. -/
def do_GET (q : QueryParams) : HandlerOutcome :=
  if qContains q "code" then
    { response_status := some 200
      auth_code := qFirst q "code"
      state := qFirst q "state"
      error := none }
  else if qContains q "error" then
    { response_status := some 400
      auth_code := none
      state := none
      error := qFirst q "error" }
  else
    { response_status := none
      auth_code := none
      state := none
      error := none }

/-- The guard of the orchestrator's wait loop
(`while server.auth_code is None and server.error is None`) becomes
false — i.e. the loop exits — exactly when the callback stored a code
or an error. -/
def wait_loop_exits (s : HandlerOutcome) : Bool :=
  s.auth_code.isSome || s.error.isSome

/-- Python truthiness of an `Optional[str]`: `None` and `""` are falsy. -/
def truthyStr (o : Option String) : Bool :=
  match o with
  | none => false
  | some s => !(s = "")

/-- What `interactive_oauth_flow` does once the wait loop has exited. -/
inductive FlowStep where
  | abortError (e : String)
  | exchange (code : String)
  | noResult
deriving DecidableEq, Repr

/-- The branch structure of `interactive_oauth_flow` after the wait loop
(hubspot_oauth.py lines 250–304): `if server.error:` return `None`
without touching the token endpoint; `if server.auth_code:` proceed to
`exchange_code_for_token`; otherwise return `None`. -/
def after_wait (s : HandlerOutcome) : FlowStep :=
  if truthyStr s.error then .abortError (s.error.getD "")
  else if truthyStr s.auth_code then .exchange (s.auth_code.getD "")
  else .noResult

/-! ## Token endpoint (`HubSpotOAuth`) -/

/-- The credentials a `HubSpotOAuth` instance carries after `__init__`
succeeds (loaded from the environment; validated non-empty). -/
structure OAuthConfig where
  client_id : String
  client_secret : String
  redirect_uri : String
deriving DecidableEq, Repr

/-- An HTTP response from a remote endpoint, as seen through the
`requests` library: `status` is `response.status_code`, `body` is
`response.text`, and `json` is what `response.json()` parses the body
to (given for responses whose body is a JSON object). -/
structure HttpResponse where
  status : Nat
  body : String
  json : PyDict
deriving DecidableEq, Repr

/-- A form-encoded POST body sent to the token endpoint. -/
structure TokenRequest where
  grant_type : String
  client_id : String
  client_secret : String
  redirect_uri : Option String
  code : Option String
  refresh_token : Option String
deriving DecidableEq, Repr

/-- Outcome of a token-endpoint call: the parsed JSON on 200, or the
raised exception's payload (status code and response body, as embedded
in the `f"... failed: {status_code} - {text}"` message) otherwise. -/
inductive ExchangeResult where
  | ok (tokens : PyDict)
  | err (status : Nat) (body : String)
deriving DecidableEq, Repr

/-- The form body `HubSpotOAuth.exchange_code_for_token` POSTs
(hubspot_oauth.py lines 72–78). -/
def exchangeRequest (cfg : OAuthConfig) (authorization_code : String) : TokenRequest :=
  { grant_type := "authorization_code"
    client_id := cfg.client_id
    client_secret := cfg.client_secret
    redirect_uri := some cfg.redirect_uri
    code := some authorization_code
    refresh_token := none }

/-- How `exchange_code_for_token` turns the endpoint's response into a
result (lines 86–89): return `response.json()` on 200, raise carrying
the status code and body otherwise. -/
def exchangeResponse (resp : HttpResponse) : ExchangeResult :=
  if resp.status = 200 then .ok resp.json
  else .err resp.status resp.body

/-- `HubSpotOAuth.exchange_code_for_token` (lines 70–89), with the
endpoint abstracted as `oracle`: build the form body, POST it exactly
once, and map the response.  Returns the trace of requests sent
together with the result. -/
def exchange_code_for_token (cfg : OAuthConfig) (authorization_code : String)
    (oracle : TokenRequest → HttpResponse) : List TokenRequest × ExchangeResult :=
  let req := exchangeRequest cfg authorization_code
  ([req], exchangeResponse (oracle req))

/-- The form body `HubSpotOAuth.refresh_access_token` POSTs
(lines 93–98). -/
def refreshRequest (cfg : OAuthConfig) (refresh_token : String) : TokenRequest :=
  { grant_type := "refresh_token"
    client_id := cfg.client_id
    client_secret := cfg.client_secret
    redirect_uri := none
    code := none
    refresh_token := some refresh_token }

/-- How `refresh_access_token` turns the endpoint's response into a
result (lines 106–109). -/
def refreshResponse (resp : HttpResponse) : ExchangeResult :=
  if resp.status = 200 then .ok resp.json
  else .err resp.status resp.body

/-- `HubSpotOAuth.refresh_access_token` (lines 91–109): one POST, then
map the response. -/
def refresh_access_token (cfg : OAuthConfig) (refresh_token : String)
    (oracle : TokenRequest → HttpResponse) : List TokenRequest × ExchangeResult :=
  let req := refreshRequest cfg refresh_token
  ([req], refreshResponse (oracle req))

/-! ## Token persistence (`refresh_saved_tokens`) -/

/-- `refresh_saved_tokens` (hubspot_oauth.py lines 319–340), with the
credential file's contents made explicit.  `fileState` is the parsed
contents of `hubspot_tokens.json` (`none` when the file is missing or
unparsable, so `load_saved_tokens` returns `None`).  `resp` is the
token endpoint's response to the refresh POST.  Returns the file's
contents after the call and the function's return value: on a non-dict
guard failure or a raised exception the file is left as it was and the
result is `None`; on success the file is overwritten with
`tokens.update(new_tokens)` and that merged dict is returned. -/
def refresh_saved_tokens (fileState : Option PyDict) (resp : HttpResponse) :
    Option PyDict × Option PyDict :=
  match fileState with
  | none => (none, none)
  | some tokens =>
    if tokens.isEmpty || !dictContains tokens "refresh_token" then
      (some tokens, none)
    else
      match refreshResponse resp with
      | .ok new_tokens =>
        let merged := dictUpdate tokens new_tokens
        (some merged, some merged)
      | .err _ _ => (some tokens, none)

/-! ## Resource REST client (`HubSpotClient._make_request`) -/

/-- Outcome of `HubSpotClient._make_request` (hubspot_client.py lines
52–67): the dedicated 401 exception, the generic `>= 400` exception
carrying status and body, or the parsed JSON body. -/
inductive RequestResult where
  | unauthorized
  | requestFailed (status : Nat) (body : String)
  | ok (json : PyDict)
deriving DecidableEq, Repr

/-- `HubSpotClient._make_request`'s handling of the response (lines
62–67): 401 raises "Access token expired or invalid", any other status
`>= 400` raises carrying the status code and body, and everything else
returns `response.json()`. -/
def make_request (resp : HttpResponse) : RequestResult :=
  if resp.status = 401 then .unauthorized
  else if resp.status ≥ 400 then .requestFailed resp.status resp.body
  else .ok resp.json

/-! ## Authorization-URL builder (`HubSpotOAuth.get_authorization_url`)

`urllib.parse.urlencode(params)` quotes each key and value with
`quote_plus` and joins `key=value` pairs with `&`.  `quote_plus`
operates on the UTF-8 bytes of the string: bytes that are ASCII
letters, digits or one of `_ . - ~` pass through, a space becomes `+`,
and every other byte becomes `%XX` with uppercase hex digits. -/

/-- The UTF-8 encoding of a character, as byte values. -/
def utf8Bytes (c : Char) : List Nat :=
  let n := c.toNat
  if n < 0x80 then [n]
  else if n < 0x800 then [0xC0 + n / 0x40, 0x80 + n % 0x40]
  else if n < 0x10000 then
    [0xE0 + n / 0x1000, 0x80 + n / 0x40 % 0x40, 0x80 + n % 0x40]
  else
    [0xF0 + n / 0x40000, 0x80 + n / 0x1000 % 0x40, 0x80 + n / 0x40 % 0x40,
     0x80 + n % 0x40]

/-- The bytes `urllib.parse.quote` never escapes: ASCII alphanumerics
and `_`, `.`, `-`, `~`. -/
def isSafeByte (b : Nat) : Bool :=
  (65 ≤ b && b ≤ 90) || (97 ≤ b && b ≤ 122) || (48 ≤ b && b ≤ 57) ||
    b = 95 || b = 46 || b = 45 || b = 126

/-- Uppercase hexadecimal digit for `n < 16`. -/
def hexDigit (n : Nat) : Char :=
  if n < 10 then Char.ofNat (48 + n) else Char.ofNat (55 + n)

/-- How `quote_plus` renders one byte. -/
def quoteByte (b : Nat) : String :=
  if isSafeByte b then String.singleton (Char.ofNat b)
  else if b = 32 then "+"
  else "%" ++ String.singleton (hexDigit (b / 16)) ++ String.singleton (hexDigit (b % 16))

/-- `urllib.parse.quote_plus` on a string: quote each UTF-8 byte. -/
def quote_plus (s : String) : String :=
  String.join ((s.data.flatMap utf8Bytes).map quoteByte)

/-- `urllib.parse.urlencode` on an ordered parameter list. -/
def urlencode (params : List (String × String)) : String :=
  String.intercalate "&" (params.map fun p => quote_plus p.1 ++ "=" ++ quote_plus p.2)

/-- `self.authorize_url` (hubspot_oauth.py line 32). -/
def authorize_url : String := "https://app.hubspot.com/oauth/authorize"

/-- `self.default_scopes` (lines 37–43). -/
def default_scopes : List String :=
  ["crm.objects.contacts.read", "crm.objects.contacts.write",
   "crm.schemas.contacts.read", "crm.schemas.contacts.write", "oauth"]

/-- `HubSpotOAuth.get_authorization_url` (lines 52–68).  `genState`
stands for the `secrets.token_urlsafe(16)` value drawn when no `state`
is supplied; when `state` is given the random draw is unused. -/
def get_authorization_url (cfg : OAuthConfig) (scopes : Option (List String))
    (state : Option String) (genState : String) : String :=
  let scopes := scopes.getD default_scopes
  let state := state.getD genState
  let params := [("client_id", cfg.client_id),
                 ("redirect_uri", cfg.redirect_uri),
                 ("scope", String.intercalate " " scopes),
                 ("response_type", "code"),
                 ("state", state)]
  authorize_url ++ "?" ++ urlencode params

/-! ## Persisted credential record (`interactive_oauth_flow`, lines 280–288) -/

/-- Python `s.split(' ')` on the character list: split at every single
space, keeping empty pieces; the empty string yields `[""]`. -/
def splitSpaceChars : List Char → List (List Char)
  | [] => [[]]
  | c :: cs =>
    let rest := splitSpaceChars cs
    if c = ' ' then [] :: rest
    else
      match rest with
      | r :: rs => (c :: r) :: rs
      | [] => [[c]]

/-- Python `s.split(' ')`. -/
def pySplitSpace (s : String) : List String :=
  (splitSpaceChars s.data).map fun l => ⟨l⟩

/-- `token_data.get('scope', '').split(' ')`: the `scopes` field written
to the credential file.  `none` when the stored `scope` value is not a
string (Python would raise on `.split`); absent `scope` falls back to
`''`, and Python's `''.split(' ')` is `['']`. -/
def scopeSplit (token_data : PyDict) : Option (List String) :=
  match dictGet token_data "scope" with
  | none => some (pySplitSpace "")
  | some (.str s) => some (pySplitSpace s)
  | some _ => none

/-- The dict `interactive_oauth_flow` writes to `hubspot_tokens.json`
(lines 282–288): exactly the five keys `access_token`, `refresh_token`,
`expires_in`, `user`, `scopes`, with `.get` defaults of `None`.  `none`
when `token_data['access_token']` would raise `KeyError` or the `scope`
value is not a string. -/
def saved_token_record (token_data user_info : PyDict) : Option PyDict :=
  match dictGet token_data "access_token", scopeSplit token_data with
  | some tok, some scopes =>
    some [("access_token", tok),
          ("refresh_token", (dictGet token_data "refresh_token").getD .null),
          ("expires_in", (dictGet token_data "expires_in").getD .null),
          ("user", (dictGet user_info "user").getD .null),
          ("scopes", .arr scopes)]
  | _, _ => none

/-! ## Embedding façade (`embedding_server.py`) -/

/-- `MODEL_NAME` (embedding_server.py line 23). -/
def MODEL_NAME : String := "sentence-transformers/all-MiniLM-L6-v2"

/-- The request body's `input` field: one string or a list of strings. -/
inductive EmbInput where
  | single (s : String)
  | batch (l : List String)
deriving DecidableEq, Repr

/-- One entry of the response's `data` list. -/
structure EmbEntry (α : Type) where
  object : String
  embedding : α
  index : Nat
deriving DecidableEq, Repr

/-- The `EmbeddingResponse` envelope. -/
structure EmbResponse (α : Type) where
  data : List (EmbEntry α)
  model : String
  prompt_tokens : Nat
  total_tokens : Nat
deriving DecidableEq, Repr

/-- Python whitespace for `str.split()` with no argument (ASCII range). -/
def pyIsSpace (c : Char) : Bool :=
  c = ' ' || c = '\t' || c = '\n' || c = '\x0d' || c = '\x0b' || c = '\x0c'

/-- `len(text.split())`: the number of maximal non-whitespace runs. -/
def wordCount (text : String) : Nat :=
  ((text.split pyIsSpace).filter (· ≠ "")).length

/-- `create_embeddings` (embedding_server.py lines 44–78).  The external
sentence-transformers model is abstracted by `E`, one fixed-length
vector per string (the spec's contract for `model.encode`: one vector
per input, preserving order); `α` is the vector type.  A single string
is wrapped into a one-element list, each embedding is paired with its
position, and usage counts whitespace-delimited words. -/
def create_embeddings {α : Type} (E : String → α) (input : EmbInput) : EmbResponse α :=
  let texts := match input with
    | .single s => [s]
    | .batch l => l
  let embedding_list := texts.map E
  let data := embedding_list.enum.map fun p =>
    { object := "embedding", embedding := p.2, index := p.1 }
  let total := (texts.map wordCount).sum
  { data := data, model := MODEL_NAME, prompt_tokens := total, total_tokens := total }

/-! ## Lemmas about dict operations -/

theorem dictGet_dictSet (d : PyDict) (k k' : String) (v : JsonVal) :
    dictGet (dictSet d k v) k' = if k = k' then some v else dictGet d k' := by
  induction d with
  | nil => simp [dictSet, dictGet]
  | cons hd tl ih =>
    obtain ⟨a, b⟩ := hd
    by_cases hak : a = k <;> by_cases hkk : k = k' <;>
      simp_all [dictSet, dictGet]

theorem dictGet_eq_none_of_not_mem (d : PyDict) (k : String)
    (h : k ∉ d.map Prod.fst) : dictGet d k = none := by
  induction d with
  | nil => rfl
  | cons hd tl ih =>
    obtain ⟨a, b⟩ := hd
    simp only [List.map_cons, List.mem_cons, not_or] at h
    have ha : a ≠ k := fun e => h.1 e.symm
    simp [dictGet, ha, ih h.2]

theorem dictGet_dictUpdate_of_none (d other : PyDict) (k : String)
    (h : dictGet other k = none) :
    dictGet (dictUpdate d other) k = dictGet d k := by
  induction other generalizing d with
  | nil => rfl
  | cons hd tl ih =>
    obtain ⟨a, b⟩ := hd
    have ha : a ≠ k := by
      intro e
      simp [dictGet, e] at h
    have ht : dictGet tl k = none := by
      simpa [dictGet, ha] using h
    rw [show dictUpdate d ((a, b) :: tl) = dictUpdate (dictSet d a b) tl from rfl,
      ih _ ht, dictGet_dictSet]
    simp [ha]

theorem dictGet_dictUpdate_of_some (d other : PyDict) (k : String) (v : JsonVal)
    (hnd : (other.map Prod.fst).Nodup) (h : dictGet other k = some v) :
    dictGet (dictUpdate d other) k = some v := by
  induction other generalizing d with
  | nil => simp [dictGet] at h
  | cons hd tl ih =>
    obtain ⟨a, b⟩ := hd
    simp only [List.map_cons, List.nodup_cons] at hnd
    rw [show dictUpdate d ((a, b) :: tl) = dictUpdate (dictSet d a b) tl from rfl]
    by_cases hak : a = k
    · subst hak
      have hv : b = v := by simpa [dictGet] using h
      have htl : dictGet tl a = none := dictGet_eq_none_of_not_mem _ _ hnd.1
      rw [dictGet_dictUpdate_of_none _ _ _ htl, dictGet_dictSet]
      simp [hv]
    · have htl : dictGet tl k = some v := by simpa [dictGet, hak] using h
      exact ih _ hnd.2 htl

/-! ## Claims about the callback listener -/

/-- C1: the claim says a callback request with neither `code` nor
`error` still gets a 400 response and surfaces a
`missing_code_or_error` outcome.  Evaluating `do_GET` at such a request
shows the opposite: no branch of the handler runs, no HTTP response is
written (`response_status = none`), no error outcome is recorded, and
the orchestrator's wait-loop guard stays true, so the wait loop never
exits. -/
theorem callback_missing_params_hangs_orchestrator :
    do_GET [("state", ["xyz"])] =
      { response_status := none, auth_code := none, state := none, error := none } ∧
    wait_loop_exits (do_GET [("state", ["xyz"])]) = false := by
  constructor <;> rfl

/-- C2: a callback carrying `error=access_denied` (and no `code`)
records the error outcome `access_denied` with a 400 response, the
orchestrator's wait loop exits, and the post-wait step aborts with that
error rather than proceeding to the token exchange. -/
theorem access_denied_aborts_without_exchange (q : QueryParams)
    (hc : qContains q "code" = false)
    (he : qFirst q "error" = some "access_denied") :
    do_GET q = { response_status := some 400, auth_code := none, state := none,
                 error := some "access_denied" } ∧
    wait_loop_exits (do_GET q) = true ∧
    after_wait (do_GET q) = .abortError "access_denied" ∧
    ∀ c, after_wait (do_GET q) ≠ .exchange c := by
  have hcont : qContains q "error" = true := by
    unfold qContains
    cases hq : qLookup q "error" with
    | none => simp [qFirst, hq] at he
    | some vs => simp
  have hdg : do_GET q =
      { response_status := some 400, auth_code := none, state := none,
        error := some "access_denied" } := by
    simp [do_GET, hc, hcont, he]
  refine ⟨hdg, ?_, ?_, ?_⟩ <;> rw [hdg] <;> simp [wait_loop_exits, after_wait, truthyStr]

/-- Witness for C2 at the concrete callback query `?error=access_denied`. -/
theorem access_denied_aborts_without_exchange_witness :
    qContains [("error", ["access_denied"])] "code" = false ∧
    qFirst [("error", ["access_denied"])] "error" = some "access_denied" ∧
    after_wait (do_GET [("error", ["access_denied"])]) = .abortError "access_denied" :=
  ⟨by decide, by decide,
    (access_denied_aborts_without_exchange [("error", ["access_denied"])]
      (by decide) (by decide)).2.2.1⟩

/-! ## Claims about token refresh and persistence -/

/-- C3: when the token endpoint answers a refresh with a non-200
status, `refresh_access_token` raises carrying exactly that status code
and response body, and `refresh_saved_tokens` leaves the credential
file's contents untouched and returns `None`. -/
theorem non200_refresh_preserves_saved_tokens (fileState : Option PyDict)
    (resp : HttpResponse) (h : resp.status ≠ 200) :
    refreshResponse resp = .err resp.status resp.body ∧
    (refresh_saved_tokens fileState resp).1 = fileState ∧
    (refresh_saved_tokens fileState resp).2 = none := by
  have h1 : refreshResponse resp = .err resp.status resp.body := by
    simp [refreshResponse, h]
  refine ⟨h1, ?_⟩
  cases fileState with
  | none => exact ⟨rfl, rfl⟩
  | some tokens =>
    by_cases hg : tokens.isEmpty || !dictContains tokens "refresh_token" <;>
      simp [refresh_saved_tokens, h1, hg]

/-- Witness for C3: a concrete 400 refresh response leaves a concrete
saved record in place. -/
theorem non200_refresh_preserves_saved_tokens_witness :
    (400 : Nat) ≠ 200 ∧
    (refresh_saved_tokens (some [("refresh_token", JsonVal.str "r")])
      { status := 400, body := "bad request", json := [] }).1 =
      some [("refresh_token", JsonVal.str "r")] :=
  ⟨by decide,
    (non200_refresh_preserves_saved_tokens
      (some [("refresh_token", JsonVal.str "r")])
      { status := 400, body := "bad request", json := [] } (by decide)).2.1⟩

/-- Prior saved record for the refresh-merge counterexample. -/
def c4_prior : PyDict :=
  [("access_token", .str "a"), ("refresh_token", .str "r"),
   ("expires_in", .num 1), ("user", .str "u")]

/-- A 200 refresh response that omits `refresh_token` but carries a
`user` field. -/
def c4_resp : HttpResponse :=
  { status := 200, body := "",
    json := [("access_token", .str "b"), ("expires_in", .num 2), ("user", .str "v")] }

/-- The merged record `tokens.update(new_tokens)` actually produces. -/
def c4_merged : PyDict :=
  [("access_token", .str "b"), ("refresh_token", .str "r"),
   ("expires_in", .num 2), ("user", .str "v")]

/-- C4 counterexample: for a 200 refresh response omitting
`refresh_token`, the prior `refresh_token` is indeed preserved, but it
is not true that only `access_token` and `expires_in` are replaced:
the response's `user` field overwrites the prior `user` field of the
saved record, because `tokens.update(new_tokens)` merges every response
field. -/
theorem refresh_merge_replaces_more_than_claimed :
    c4_resp.status = 200 ∧
    dictGet c4_resp.json "refresh_token" = none ∧
    (refresh_saved_tokens (some c4_prior) c4_resp).2 = some c4_merged ∧
    dictGet c4_merged "refresh_token" = dictGet c4_prior "refresh_token" ∧
    "user" ≠ "access_token" ∧ "user" ≠ "expires_in" ∧ "user" ≠ "refresh_token" ∧
    dictGet c4_prior "user" = some (.str "u") ∧
    dictGet c4_merged "user" = some (.str "v") := by
  refine ⟨rfl, rfl, ?_, rfl, by decide, by decide, by decide, rfl, rfl⟩
  rfl

/-- C4 as amended: on a 200 refresh of a well-formed saved record, the
persisted record becomes the full dict merge `tokens.update(response)`:
every field absent from the response keeps its prior value (so an
omitted `refresh_token` is preserved), and every field present in the
response — not only `access_token` and `expires_in` — replaces the
prior field of the same name (so a present `refresh_token` replaces the
old one). -/
theorem refresh_merge_semantics (tokens : PyDict) (resp : HttpResponse)
    (h200 : resp.status = 200)
    (hne : tokens.isEmpty = false)
    (hrt : dictContains tokens "refresh_token" = true)
    (hnd : (resp.json.map Prod.fst).Nodup) :
    (refresh_saved_tokens (some tokens) resp).1 = some (dictUpdate tokens resp.json) ∧
    (refresh_saved_tokens (some tokens) resp).2 = some (dictUpdate tokens resp.json) ∧
    (dictGet resp.json "refresh_token" = none →
      dictGet (dictUpdate tokens resp.json) "refresh_token" =
        dictGet tokens "refresh_token") ∧
    (∀ k, dictGet resp.json k = none →
      dictGet (dictUpdate tokens resp.json) k = dictGet tokens k) ∧
    (∀ k v, dictGet resp.json k = some v →
      dictGet (dictUpdate tokens resp.json) k = some v) := by
  refine ⟨?_, ?_, fun h => dictGet_dictUpdate_of_none _ _ _ h,
    fun k h => dictGet_dictUpdate_of_none _ _ _ h,
    fun k v h => dictGet_dictUpdate_of_some _ _ _ _ hnd h⟩ <;>
    simp [refresh_saved_tokens, refreshResponse, h200, hne, hrt]

/-- Witness for the amended C4 at the counterexample's concrete inputs:
the omitted `refresh_token` is preserved and the present `user` field
is replaced. -/
theorem refresh_merge_semantics_witness :
    c4_resp.status = 200 ∧
    dictGet (dictUpdate c4_prior c4_resp.json) "refresh_token" =
      dictGet c4_prior "refresh_token" ∧
    dictGet (dictUpdate c4_prior c4_resp.json) "user" = some (.str "v") := by
  have h := refresh_merge_semantics c4_prior c4_resp rfl (by decide) (by decide)
    (by decide)
  exact ⟨rfl, h.2.2.1 (by decide), h.2.2.2.2 "user" (.str "v") (by decide)⟩

/-! ## Claims about the code exchange and the resource client -/

/-- C5: the authorization-code exchange sends exactly one request (no
retry), returns the parsed token set exactly when the endpoint answers
200 — in which case the returned record's `access_token` field is the
response's — and raises carrying the status code and body on every
non-200 response. -/
theorem exchange_code_for_token_semantics (cfg : OAuthConfig) (code : String)
    (oracle : TokenRequest → HttpResponse) (resp : HttpResponse) :
    (exchange_code_for_token cfg code oracle).1 = [exchangeRequest cfg code] ∧
    (exchange_code_for_token cfg code oracle).2 =
      exchangeResponse (oracle (exchangeRequest cfg code)) ∧
    ((∃ t, exchangeResponse resp = .ok t) ↔ resp.status = 200) ∧
    (resp.status = 200 → exchangeResponse resp = .ok resp.json) ∧
    (∀ t, exchangeResponse resp = .ok t →
      dictGet t "access_token" = dictGet resp.json "access_token") ∧
    (resp.status ≠ 200 → exchangeResponse resp = .err resp.status resp.body) := by
  refine ⟨rfl, rfl, ?_, ?_, ?_, ?_⟩ <;>
    by_cases h : resp.status = 200 <;> simp [exchangeResponse, h]

/-- Witness for C5: a concrete 200 response yields its parsed body, a
concrete 403 response yields the error carrying status and body. -/
theorem exchange_code_for_token_semantics_witness :
    exchangeResponse ⟨200, "", [("access_token", JsonVal.str "tok")]⟩ =
      .ok [("access_token", JsonVal.str "tok")] ∧
    exchangeResponse ⟨403, "denied", []⟩ = .err 403 "denied" :=
  ⟨(exchange_code_for_token_semantics ⟨"c", "s", "r"⟩ "code" (fun _ => ⟨200, "", []⟩)
      ⟨200, "", [("access_token", JsonVal.str "tok")]⟩).2.2.2.1 rfl,
   (exchange_code_for_token_semantics ⟨"c", "s", "r"⟩ "code" (fun _ => ⟨200, "", []⟩)
      ⟨403, "denied", []⟩).2.2.2.2.2 (by decide)⟩

/-- C6: the resource client maps a 401 to the dedicated unauthorized
failure (never the generic one), any other status `>= 400` to
`requestFailed` carrying status and body, and every 2xx response to the
parsed JSON body. -/
theorem make_request_status_dispatch (resp : HttpResponse) :
    (resp.status = 401 → make_request resp = .unauthorized ∧
      ∀ s b, make_request resp ≠ .requestFailed s b) ∧
    (resp.status ≠ 401 → resp.status ≥ 400 →
      make_request resp = .requestFailed resp.status resp.body) ∧
    (200 ≤ resp.status → resp.status < 300 → make_request resp = .ok resp.json) := by
  refine ⟨fun h => ?_, fun h1 h2 => ?_, fun h1 h2 => ?_⟩
  · simp [make_request, h]
  · simp [make_request, h1, h2]
  · have hne : resp.status ≠ 401 := by omega
    have hlt : ¬resp.status ≥ 400 := by omega
    simp [make_request, hne, hlt]

/-- Witness for C6 at concrete 401, 500 and 200 responses. -/
theorem make_request_status_dispatch_witness :
    make_request ⟨401, "expired", []⟩ = .unauthorized ∧
    make_request ⟨500, "oops", []⟩ = .requestFailed 500 "oops" ∧
    make_request ⟨200, "ok", [("results", JsonVal.arr [])]⟩ =
      .ok [("results", JsonVal.arr [])] :=
  ⟨((make_request_status_dispatch ⟨401, "expired", []⟩).1 rfl).1,
   (make_request_status_dispatch ⟨500, "oops", []⟩).2.1 (by decide) (by decide),
   (make_request_status_dispatch ⟨200, "ok", [("results", JsonVal.arr [])]⟩).2.2
      (by decide) (by decide)⟩

/-! ## Claim about the persisted `scopes` field -/

/-- C10: the persisted `scopes` field is the response's `scope` string
split on single spaces; when the 200 response omits `scope`, the
`.get('scope', '')` default makes that `''.split(' ')`, which is the
one-element list containing the empty string — not the empty list. -/
theorem saved_scopes_split_semantics (token_data user_info rec : PyDict)
    (hrec : saved_token_record token_data user_info = some rec) :
    (dictGet token_data "scope" = none →
      dictGet rec "scopes" = some (.arr [""]) ∧
      JsonVal.arr [""] ≠ JsonVal.arr []) ∧
    (∀ s, dictGet token_data "scope" = some (.str s) →
      dictGet rec "scopes" = some (.arr (pySplitSpace s))) := by
  cases ha : dictGet token_data "access_token" with
  | none => simp [saved_token_record, ha] at hrec
  | some tok =>
    constructor
    · intro hs
      have hsc : scopeSplit token_data = some (pySplitSpace "") := by
        simp [scopeSplit, hs]
      rw [saved_token_record, ha, hsc] at hrec
      have hr : rec = [("access_token", tok),
          ("refresh_token", (dictGet token_data "refresh_token").getD .null),
          ("expires_in", (dictGet token_data "expires_in").getD .null),
          ("user", (dictGet user_info "user").getD .null),
          ("scopes", .arr (pySplitSpace ""))] := by
        exact (Option.some.injEq _ _ ▸ hrec).symm
      rw [hr]
      exact ⟨by simp [dictGet]; decide, by decide⟩
    · intro s hs
      have hsc : scopeSplit token_data = some (pySplitSpace s) := by
        simp [scopeSplit, hs]
      rw [saved_token_record, ha, hsc] at hrec
      have hr : rec = [("access_token", tok),
          ("refresh_token", (dictGet token_data "refresh_token").getD .null),
          ("expires_in", (dictGet token_data "expires_in").getD .null),
          ("user", (dictGet user_info "user").getD .null),
          ("scopes", .arr (pySplitSpace s))] := by
        exact (Option.some.injEq _ _ ▸ hrec).symm
      rw [hr]
      simp [dictGet]

/-- Witness for C10: a concrete 200 token response with no `scope`
field persists `scopes = [""]`. -/
theorem saved_scopes_split_semantics_witness :
    saved_token_record [("access_token", JsonVal.str "a")] [] =
      some [("access_token", JsonVal.str "a"), ("refresh_token", JsonVal.null),
            ("expires_in", JsonVal.null), ("user", JsonVal.null),
            ("scopes", JsonVal.arr [""])] ∧
    dictGet [("access_token", JsonVal.str "a"), ("refresh_token", JsonVal.null),
            ("expires_in", JsonVal.null), ("user", JsonVal.null),
            ("scopes", JsonVal.arr [""])] "scopes" = some (JsonVal.arr [""]) :=
  ⟨by decide,
   ((saved_scopes_split_semantics [("access_token", JsonVal.str "a")] []
      [("access_token", JsonVal.str "a"), ("refresh_token", JsonVal.null),
       ("expires_in", JsonVal.null), ("user", JsonVal.null),
       ("scopes", JsonVal.arr [""])] (by decide)).1 (by decide)).1⟩

/-! ## Claims about the authorization-URL builder -/

/-- `"&".join` on exactly five pieces, unfolded. -/
theorem intercalate_five (s a b c d e : String) :
    String.intercalate s [a, b, c, d, e] = a ++ s ++ b ++ s ++ c ++ s ++ d ++ s ++ e := rfl

/-- C7: with a fixed `state`, the authorization URL is a deterministic
function of the inputs (independent of the random state draw, which
goes unused); it decomposes as `pre ++ quote_plus(scopeString) ++ post`
where `pre` and `post` do not depend on `scopes` — so two calls
differing only in `scopes` differ only in the `scope` query parameter —
every key and value passes through `quote_plus`, and the URL contains
`response_type=code`. -/
theorem auth_url_deterministic_and_scope_localized (cfg : OAuthConfig) (st : String) :
    ∃ pre post,
      (∀ sc g, get_authorization_url cfg (some sc) (some st) g =
          pre ++ quote_plus (String.intercalate " " sc) ++ post) ∧
      (∀ sc g g', get_authorization_url cfg (some sc) (some st) g =
          get_authorization_url cfg (some sc) (some st) g') ∧
      pre = authorize_url ++ "?" ++ quote_plus "client_id" ++ "=" ++
        quote_plus cfg.client_id ++ "&" ++ quote_plus "redirect_uri" ++ "=" ++
        quote_plus cfg.redirect_uri ++ "&" ++ quote_plus "scope" ++ "=" ∧
      post = "&" ++ quote_plus "response_type" ++ "=" ++ quote_plus "code" ++
        "&" ++ quote_plus "state" ++ "=" ++ quote_plus st ∧
      ∃ u v, post = u ++ "response_type=code" ++ v := by
  refine ⟨authorize_url ++ "?" ++ quote_plus "client_id" ++ "=" ++
      quote_plus cfg.client_id ++ "&" ++ quote_plus "redirect_uri" ++ "=" ++
      quote_plus cfg.redirect_uri ++ "&" ++ quote_plus "scope" ++ "=",
    "&" ++ quote_plus "response_type" ++ "=" ++ quote_plus "code" ++
      "&" ++ quote_plus "state" ++ "=" ++ quote_plus st,
    fun sc g => ?_, fun sc g g' => rfl, rfl, rfl,
    "&", "&" ++ quote_plus "state" ++ "=" ++ quote_plus st, ?_⟩
  · simp only [get_authorization_url, urlencode, Option.getD, List.map]
    rw [intercalate_five]
    simp only [String.append_assoc]
  · have h : ("&" : String) ++ "response_type=code" ++ "&" =
        "&" ++ quote_plus "response_type" ++ "=" ++ quote_plus "code" ++ "&" := by
      decide
    calc "&" ++ quote_plus "response_type" ++ "=" ++ quote_plus "code" ++ "&" ++
          quote_plus "state" ++ "=" ++ quote_plus st
        = ("&" ++ quote_plus "response_type" ++ "=" ++ quote_plus "code" ++ "&") ++
          (quote_plus "state" ++ "=" ++ quote_plus st) := by
          simp only [String.append_assoc]
      _ = ("&" ++ "response_type=code" ++ "&") ++
          (quote_plus "state" ++ "=" ++ quote_plus st) := by rw [h]
      _ = "&" ++ "response_type=code" ++
          ("&" ++ (quote_plus "state" ++ "=" ++ quote_plus st)) := by
          simp only [String.append_assoc]
      _ = "&" ++ "response_type=code" ++
          ("&" ++ quote_plus "state" ++ "=" ++ quote_plus st) := by
          simp only [String.append_assoc]

/-! ## Claims about the embedding façade -/

/-- C8: for a batch of `N ≥ 1` input strings, the response's `data`
list has exactly `N` entries, and the entry at each position `i` pairs
`index = i` with the embedding of the `i`-th input, in input order. -/
theorem embedding_batch_indices (α : Type) (E : String → α) (texts : List String)
    (_hN : 1 ≤ texts.length) :
    (create_embeddings E (.batch texts)).data.length = texts.length ∧
    ∀ (i : Nat) (t : String), texts[i]? = some t →
      (create_embeddings E (.batch texts)).data[i]? =
        some { object := "embedding", embedding := E t, index := i } := by
  constructor
  · simp [create_embeddings, List.enum_length]
  · intro i t ht
    simp [create_embeddings, List.getElem?_map, List.getElem?_enum, ht]

/-- Witness for C8 on the two-element batch `["a", "b"]`. -/
theorem embedding_batch_indices_witness :
    1 ≤ (["a", "b"] : List String).length ∧
    (create_embeddings (fun s => s) (.batch ["a", "b"])).data[1]? =
      some { object := "embedding", embedding := "b", index := 1 } :=
  ⟨by decide,
   (embedding_batch_indices String (fun s => s) ["a", "b"] (by decide)).2 1 "b" rfl⟩

/-- C9: a single-string input is normalized to the one-element batch,
so the whole response — and in particular the first `data` entry — is
identical to that of the one-element batch. -/
theorem embedding_single_equals_singleton_batch (α : Type) (E : String → α)
    (s : String) :
    create_embeddings E (.single s) = create_embeddings E (.batch [s]) ∧
    (create_embeddings E (.single s)).data[0]? =
      (create_embeddings E (.batch [s])).data[0]? :=
  ⟨rfl, rfl⟩

end AdvisorAI
